import Mathlib

/-!
Verification development for the AutomationService demo servers
(`backend_server.py` and `frontend_server.py`).

The backend handler is modelled as pure functions from the request data a
handler inspects (path, `Content-Length` header, parsed JSON body) to the
observable output (status line sent, body bytes written, escaped exception).
JSON values are modelled by the inductive type `JValue`; `json.dumps` is
modelled by `dumps`; the builtin `int(...)` conversion applied to a header
string is modelled by `pythonInt`.  The JSON *parser* itself is abstracted:
handlers take the parse result as an `Option JValue` (`none` = the
`json.loads` call raised, which the source's bare `except` turns into `{}`).
Python dictionaries produced by `json.loads` have unique keys, so object
field lists are looked up by first match.
-/

/-- A JSON value as produced by `json.loads` / consumed by `json.dumps`.
Object fields keep insertion order, as Python dicts do. -/
inductive JValue : Type where
  | null : JValue
  | bool (b : Bool) : JValue
  | num (n : Int) : JValue
  | str (s : String) : JValue
  | arr (xs : List JValue) : JValue
  | obj (fields : List (String × JValue)) : JValue

/-- Model of Python `data.get(key)` where `data` came from `json.loads`:
on a dict it returns the value, or `None` when the key is absent; on any
non-dict value the attribute access raises `AttributeError`, modelled as
`none`. -/
def pyGet : JValue → String → Option JValue
  | .obj fs, k => some ((fs.lookup k).getD .null)
  | _, _ => none

/-- Model of the Python comparison `v == lit` for a string literal `lit`:
true exactly when `v` is an equal string. -/
def pyEqStr : JValue → String → Bool
  | .str s, t => s == t
  | _, _ => false

/-! ### `json.dumps` model (default separators, `ensure_ascii=True`) -/

def hexDigit (n : Nat) : Char := if n < 10 then Char.ofNat (48 + n) else Char.ofNat (87 + n)

def hex4 (n : Nat) : String :=
  ⟨[hexDigit ((n / 4096) % 16), hexDigit ((n / 256) % 16), hexDigit ((n / 16) % 16), hexDigit (n % 16)]⟩

/-- JSON string escaping as `json.dumps` performs it with `ensure_ascii=True`:
the two-character escapes, `\uXXXX` for every character outside the
printable ASCII range 0x20-0x7E (DEL included), surrogate pairs beyond
the BMP. -/
def escapeChar (c : Char) : String :=
  if c = '"' then "\\\""
  else if c = '\\' then "\\\\"
  else if c = '\n' then "\\n"
  else if c = '\t' then "\\t"
  else if c = '\r' then "\\r"
  else if c.toNat = 8 then "\\b"
  else if c.toNat = 12 then "\\f"
  else if c.toNat < 32 || c.toNat ≥ 127 then
    if c.toNat < 65536 then "\\u" ++ hex4 c.toNat
    else
      let v := c.toNat - 65536
      "\\u" ++ hex4 (55296 + v / 1024) ++ "\\u" ++ hex4 (56320 + v % 1024)
  else String.singleton c

def jstring (s : String) : String :=
  "\"" ++ String.join (s.toList.map escapeChar) ++ "\""

mutual

/-- Model of `json.dumps` with its default separators. -/
def dumps : JValue → String
  | .null => "null"
  | .bool true => "true"
  | .bool false => "false"
  | .num n => toString n
  | .str s => jstring s
  | .arr xs => "[" ++ dumpsElems xs ++ "]"
  | .obj fs => "\x7b" ++ dumpsFields fs ++ "\x7d"

def dumpsElems : List JValue → String
  | [] => ""
  | [x] => dumps x
  | x :: y :: xs => dumps x ++ ", " ++ dumpsElems (y :: xs)

def dumpsFields : List (String × JValue) → String
  | [] => ""
  | [(k, v)] => jstring k ++ ": " ++ dumps v
  | (k, v) :: f :: fs => jstring k ++ ": " ++ dumps v ++ ", " ++ dumpsFields (f :: fs)

end

/-! ### Python `int(...)` on an optional header value -/

/-- The characters Python's `int` conversion strips as whitespace, among
the latin-1 characters (all that HTTP header decoding can deliver):
`\t`, `\n`, `\v`, `\f`, `\r`, space, U+0085 (NEL) and U+00A0 (NBSP). -/
def isPySpace (c : Char) : Bool :=
  c = ' ' || c = '\t' || c = '\n' || c = '\r' || c.toNat = 11 || c.toNat = 12
    || c.toNat = 133 || c.toNat = 160

def pyStrip (cs : List Char) : List Char :=
  ((cs.dropWhile isPySpace).reverse.dropWhile isPySpace).reverse

/-- Digits of a decimal literal after its first digit: single underscores
may separate digits but may not lead, trail, or repeat. -/
def pyDigitsAux : List Char → Nat → Option Nat
  | [], acc => some acc
  | '_' :: c :: rest, acc =>
      if c.isDigit then pyDigitsAux rest (acc * 10 + (c.toNat - 48)) else none
  | '_' :: [], _ => none
  | c :: rest, acc =>
      if c.isDigit then pyDigitsAux rest (acc * 10 + (c.toNat - 48)) else none

def pyNat : List Char → Option Nat
  | c :: rest => if c.isDigit then pyDigitsAux rest (c.toNat - 48) else none
  | [] => none

/-- Model of Python `int(s)` on a string: optional surrounding whitespace,
optional sign, decimal digits with optional single underscore separators;
`none` models the `ValueError` raised on anything else.  The model is
exact on latin-1 strings, the full range of `http.server` header values
(the non-latin-1 Unicode digits and whitespace `int` also accepts cannot
reach a header). -/
def pythonInt (s : String) : Option Int :=
  match pyStrip s.toList with
  | '+' :: rest => (pyNat rest).map Int.ofNat
  | '-' :: rest => (pyNat rest).map (fun n => -(n : Int))
  | rest => (pyNat rest).map Int.ofNat

/-! ### Backend response payloads (`backend_server.py`) -/

def healthResponse (now : String) : JValue :=
  .obj [("status", .str "OK"), ("timestamp", .str now), ("version", .str "1.0.0"),
        ("service", .str "AutomationService Backend")]

def plansList : List JValue :=
  [.obj [("id", .str "starter"), ("name", .str "Starter Automation"), ("price", .num 29),
         ("features", .arr [.str "1,000 conversations/month", .str "Basic workflows",
                            .str "Email support"])],
   .obj [("id", .str "pro"), ("name", .str "Pro Automation"), ("price", .num 99),
         ("features", .arr [.str "5,000 conversations/month", .str "Advanced workflows",
                            .str "Priority support", .str "API access"])],
   .obj [("id", .str "business"), ("name", .str "Business Automation"), ("price", .num 299),
         ("features", .arr [.str "15,000 conversations/month", .str "Custom workflows",
                            .str "Phone support", .str "Advanced analytics"])]]

def plansResponse : JValue := .obj [("plans", .arr plansList)]

def connectResponse : JValue :=
  .obj [("authUrl", .str "https://www.facebook.com/v18.0/dialog/oauth?client_id=demo_app_id&redirect_uri=http://localhost:3001/auth/callback&scope=whatsapp_business_management,whatsapp_business_messaging")]

def endpointNotFound : JValue := .obj [("error", .str "Endpoint not found")]

def loginSuccessResponse : JValue :=
  .obj [("success", .bool true),
        ("user", .obj [("id", .num 1), ("email", .str "demo@automationservice.com"),
                       ("name", .str "Demo User"), ("tenant_id", .str "tenant-demo"),
                       ("plan", .str "pro")]),
        ("token", .str "demo_jwt_token_12345")]

def loginFailureResponse : JValue :=
  .obj [("success", .bool false), ("error", .str "Invalid credentials")]

def registerResponse (email name : JValue) : JValue :=
  .obj [("success", .bool true), ("message", .str "User registered successfully"),
        ("user", .obj [("id", .num 2), ("email", email), ("name", name),
                       ("tenant_id", .str "tenant-new"), ("plan", .str "starter")])]

def callbackResponse : JValue :=
  .obj [("success", .bool true), ("message", .str "WhatsApp connected successfully!"),
        ("phone_number_id", .str "demo_phone_id_12345")]

def messagesSendResponse : JValue :=
  .obj [("success", .bool true), ("messageId", .str "msg_demo_12345"), ("status", .str "sent")]

def webhookResponse : JValue := .obj [("status", .str "received")]

/-- The GET route dispatch of `AutomationServiceHandler.do_GET`: the
response object chosen for a path (`now` stands for
`datetime.datetime.now().isoformat()`). -/
def dispatchGet (now path : String) : JValue :=
  if path = "/api/health" then healthResponse now
  else if path = "/api/plans" then plansResponse
  else if path = "/api/auth/connect" then connectResponse
  else endpointNotFound

/-- `AutomationServiceHandler.do_GET`: `send_response(200)` is issued
unconditionally, then the dispatched object is serialized and written. -/
def do_GET (now path : String) : Nat × String :=
  (200, dumps (dispatchGet now path))

/-- The POST route dispatch of `AutomationServiceHandler.do_POST` given the
(already defaulted) body value `data`; `none` models the `AttributeError`
raised by `data.get(...)` when `data` is not a dict. -/
def dispatchPost (path : String) (data : JValue) : Option JValue :=
  if path = "/api/auth/login" then
    match pyGet data "email", pyGet data "password" with
    | some email, some password =>
        if pyEqStr email "demo@automationservice.com" && pyEqStr password "demo123" then
          some loginSuccessResponse
        else
          some loginFailureResponse
    | _, _ => none
  else if path = "/api/auth/register" then
    match pyGet data "email", pyGet data "name" with
    | some email, some nm => some (registerResponse email nm)
    | _, _ => none
  else if path = "/api/auth/callback" then some callbackResponse
  else if path = "/api/messages/send" then some messagesSendResponse
  else if path = "/webhook/whatsapp" then some webhookResponse
  else some endpointNotFound

/-- Exceptions that can escape `do_POST`. -/
inductive PyExn : Type where
  | typeError : PyExn
  | valueError : PyExn
  | attributeError : PyExn
deriving DecidableEq

/-- Observable outcome of one `do_POST` call: the status line sent (if
any), the body bytes written (if any), and the exception that escaped the
handler (if any). -/
structure PostOutcome where
  statusSent : Option Nat
  bodySent : Option String
  exn : Option PyExn
deriving DecidableEq

/-- `AutomationServiceHandler.do_POST`.  `contentLength` is the raw
`Content-Length` header (`none` when absent, so `int(None)` raises
`TypeError`); a present header goes through `int(...)`, which raises
`ValueError` on a non-numeric value — both before `send_response`.
`parsedBody` is the result of `json.loads` on the body (`none` = it
raised, replaced by `{}` by the bare `except`).  Only after the status and
headers are sent is the route dispatched; an `AttributeError` there
escapes with no body written. -/
def do_POST (contentLength : Option String) (parsedBody : Option JValue)
    (path : String) : PostOutcome :=
  match contentLength with
  | none => ⟨none, none, some .typeError⟩
  | some s =>
    match pythonInt s with
    | none => ⟨none, none, some .valueError⟩
    | some _ =>
      let data := parsedBody.getD (.obj [])
      match dispatchPost path data with
      | some response => ⟨some 200, some (dumps response), none⟩
      | none => ⟨some 200, none, some .attributeError⟩

/-! ### Frontend handler (`frontend_server.py`) -/

/-- Model of Python `s.startswith(pre)`. -/
def pyStartsWith (s pre : String) : Bool := pre.toList.isPrefixOf s.toList

/-- Model of the Python membership test `c in s` for a single character. -/
def pyInStr (c : Char) (s : String) : Bool := s.toList.contains c

/-- The path rewrite in `AutomationServiceFrontendHandler.do_GET`: any
path other than `/` that does not start with `/static` and contains no
`.` is rewritten to `/` before delegating to the static file handler. -/
def frontend_do_GET_path (path : String) : String :=
  if path != "/" && !(pyStartsWith path "/static") && !(pyInStr '.' path) then "/"
  else path

/-! ### SHA-256 (`hashlib.sha256(...).hexdigest()`), used for the seeded
demo password -/

/-- Right rotation of a 32-bit word represented as a `Nat` below `2^32`. -/
def rotr32 (n x : Nat) : Nat := ((x >>> n) ||| (x <<< (32 - n))) % 4294967296

/-- The 64 SHA-256 round constants, written in decimal. -/
def shaK : List Nat :=
  [1116352408, 1899447441, 3049323471, 3921009573, 961987163, 1508970993,
   2453635748, 2870763221, 3624381080, 310598401, 607225278, 1426881987,
   1925078388, 2162078206, 2614888103, 3248222580, 3835390401, 4022224774,
   264347078, 604807628, 770255983, 1249150122, 1555081692, 1996064986,
   2554220882, 2821834349, 2952996808, 3210313671, 3336571891, 3584528711,
   113926993, 338241895, 666307205, 773529912, 1294757372, 1396182291,
   1695183700, 1986661051, 2177026350, 2456956037, 2730485921, 2820302411,
   3259730800, 3345764771, 3516065817, 3600352804, 4094571909, 275423344,
   430227734, 506948616, 659060556, 883997877, 958139571, 1322822218,
   1537002063, 1747873779, 1955562222, 2024104815, 2227730452, 2361852424,
   2428436474, 2756734187, 3204031479, 3329325298]

/-- The eight SHA-256 initial hash words, written in decimal. -/
def shaH0 : List Nat :=
  [1779033703, 3144134277, 1013904242, 2773480762,
   1359893119, 2600822924, 528734635, 1541459225]

/-- Big-endian encoding of `n` in `k` bytes. -/
def beBytes (k n : Nat) : List Nat :=
  (List.range k).map (fun i => (n >>> (8 * (k - 1 - i))) % 256)

/-- SHA-256 padding: append `0x80`, zeros, and the 64-bit big-endian bit
length, reaching a multiple of 64 bytes. -/
def sha256pad (msg : List Nat) : List Nat :=
  let len := msg.length
  let zeros := (64 - ((len + 9) % 64)) % 64
  msg ++ [0x80] ++ List.replicate zeros 0 ++ beBytes 8 (len * 8)

/-- Combine four bytes into a big-endian 32-bit word. -/
def word32 : List Nat → Nat
  | [a, b, c, d] => a * 16777216 + b * 65536 + c * 256 + d
  | _ => 0

/-- Split a list into chunks of size `k` (the lists fed to it here have
length a multiple of `k`). -/
def chunksOf (k : Nat) : List Nat → List (List Nat)
  | [] => []
  | xs => if _hk : 0 < k ∧ 0 < xs.length then
      xs.take k :: chunksOf k (xs.drop k)
    else [xs]
termination_by xs => xs.length
decreasing_by
  simp only [List.length_drop]
  omega

/-- Message schedule extension: the first 16 words extended to 64. -/
def shaSchedule (w : Array Nat) : Array Nat := Id.run do
  let mut w := w
  for i in [16:64] do
    let w15 := w[i - 15]!
    let w2 := w[i - 2]!
    let s0 := (rotr32 7 w15) ^^^ (rotr32 18 w15) ^^^ (w15 >>> 3)
    let s1 := (rotr32 17 w2) ^^^ (rotr32 19 w2) ^^^ (w2 >>> 10)
    w := w.push ((w[i - 16]! + s0 + w[i - 7]! + s1) % 4294967296)
  return w

/-- One round of the SHA-256 compression function on the eight working
words. -/
def shaRound (st : List Nat) (k wi : Nat) : List Nat :=
  match st with
  | [a, b, c, d, e, f, g, h] =>
    let s1 := (rotr32 6 e) ^^^ (rotr32 11 e) ^^^ (rotr32 25 e)
    let ch := (e &&& f) ^^^ ((4294967295 - e) &&& g)
    let t1 := (h + s1 + ch + k + wi) % 4294967296
    let s0 := (rotr32 2 a) ^^^ (rotr32 13 a) ^^^ (rotr32 22 a)
    let mj := (a &&& b) ^^^ (a &&& c) ^^^ (b &&& c)
    let t2 := (s0 + mj) % 4294967296
    [(t1 + t2) % 4294967296, a, b, c, (d + t1) % 4294967296, e, f, g]
  | other => other

/-- Process one 64-byte chunk, updating the eight hash words. -/
def shaChunk (h : List Nat) (chunk : List Nat) : List Nat :=
  let w0 := ((chunksOf 4 chunk).map word32).toArray
  let w := shaSchedule w0
  let final := (List.range 64).foldl (fun st i => shaRound st (shaK.get! i) (w[i]!)) h
  (h.zip final).map (fun p => (p.1 + p.2) % 4294967296)

def sha256words (msg : List Nat) : List Nat :=
  (chunksOf 64 (sha256pad msg)).foldl shaChunk shaH0

def hex8 (n : Nat) : String :=
  ⟨(List.range 8).map (fun i => hexDigit ((n >>> (4 * (7 - i))) % 16))⟩

/-- Model of `hashlib.sha256(s.encode()).hexdigest()`. -/
def sha256hex (s : String) : String :=
  String.join ((sha256words (s.toUTF8.toList.map UInt8.toNat)).map hex8)

/-! ### Database state and `init_db` (`backend_server.py`) -/

/-- A row of the `users` table (the `created_at` default timestamp, never
read by any code, is omitted). -/
structure UserRow where
  id : Nat
  email : String
  password : String
  userName : String
  tenant_id : String
  plan : String
deriving DecidableEq

/-- A row of the `tenants` table (the `created_at` timestamp omitted as
above). -/
structure TenantRow where
  id : String
  tenantName : String
  domain : String
  settings : String
deriving DecidableEq

/-- A row of the `whatsapp_accounts` table: created, never populated. -/
structure WhatsAppAccountRow where
  id : Nat
  tenant_id : String
  phone_number_id : String
  access_token : String
  business_id : String
  is_active : Bool
deriving DecidableEq

/-- The SQLite database file: each table is `none` while it does not
exist and `some rows` once created. -/
structure DBState where
  users : Option (List UserRow)
  tenants : Option (List TenantRow)
  whatsapp_accounts : Option (List WhatsAppAccountRow)
deriving DecidableEq

def demo_password : String := sha256hex "demo123"

/-- The seeded demo user row; `AUTOINCREMENT` assigns id 1 since the
insert only happens into an empty table and `init_db` never deletes. -/
def demoUserRow : UserRow :=
  ⟨1, "demo@automationservice.com", demo_password, "Demo User", "tenant-demo", "pro"⟩

def demoTenantRow : TenantRow :=
  ⟨"tenant-demo", "Demo Company", "demo.automationservice.com",
   "\x7b\"theme\": \"blue\", \"timezone\": \"UTC\"\x7d"⟩

/-- `init_db`: `CREATE TABLE IF NOT EXISTS` for the three tables, then
`SELECT COUNT(*) FROM users`; when the count is 0, insert the demo user
row and the demo tenant row. -/
def init_db (s : DBState) : DBState :=
  let users := s.users.getD []
  let tenants := s.tenants.getD []
  let wa := s.whatsapp_accounts.getD []
  if users.length = 0 then
    ⟨some (users ++ [demoUserRow]), some (tenants ++ [demoTenantRow]), some wa⟩
  else
    ⟨some users, some tenants, some wa⟩

/-- The empty database file before the first run. -/
def freshDB : DBState := ⟨none, none, none⟩

/-- A GET request served against a database state: the handler body never
touches the database, so the state is returned unchanged and the response
does not depend on it. -/
def serverGet (db : DBState) (now path : String) : DBState × (Nat × String) :=
  (db, do_GET now path)

/-- A POST request served against a database state: likewise the handler
performs no query and no write. -/
def serverPost (db : DBState) (contentLength : Option String)
    (parsedBody : Option JValue) (path : String) : DBState × PostOutcome :=
  (db, do_POST contentLength parsedBody path)

/-! ## Theorems -/

/-- Helper: the Python string comparison model agrees with propositional
equality to a string value. -/
theorem pyEqStr_iff (v : JValue) (t : String) : pyEqStr v t = true ↔ v = JValue.str t := by
  cases v <;> simp [pyEqStr]

/-- C3: a frontend GET path that does not start with `/static` and
contains no `.` (the source's test for "has no file extension") is
rewritten to `/`, so the root document is what gets served. -/
theorem frontend_rewrites_extensionless_paths (p : String)
    (h1 : pyStartsWith p "/static" = false) (h2 : pyInStr '.' p = false) :
    frontend_do_GET_path p = "/" := by
  unfold frontend_do_GET_path
  by_cases hp : p = "/"
  · subst hp; rfl
  · simp [h1, h2, hp]

/-- Witness for C3 at the concrete path `/dashboard`. -/
theorem frontend_rewrites_extensionless_paths_witness :
    (pyStartsWith "/dashboard" "/static" = false ∧ pyInStr '.' "/dashboard" = false)
    ∧ frontend_do_GET_path "/dashboard" = "/" :=
  ⟨⟨by decide, by decide⟩,
   frontend_rewrites_extensionless_paths "/dashboard" (by decide) (by decide)⟩

/-- C4: `GET /api/plans` answers with an object whose `plans` field is a
list of exactly three entries whose ids are, in order, `starter`, `pro`,
`business`. -/
theorem plans_three_tiers (now : String) :
    ∃ ps : List JValue,
      pyGet (dispatchGet now "/api/plans") "plans" = some (JValue.arr ps)
      ∧ ps.length = 3
      ∧ ps.map (fun p => pyGet p "id")
          = [some (JValue.str "starter"), some (JValue.str "pro"), some (JValue.str "business")] :=
  ⟨plansList, rfl, rfl, rfl⟩

/-- C8: the login response is independent of the database contents: for
any two database states, the same request yields the same outcome, with
byte-identical body writes (the handler compares string literals and
performs no lookup). -/
theorem login_independent_of_db (db₁ db₂ : DBState) (cl : Option String)
    (parsed : Option JValue) :
    (serverPost db₁ cl parsed "/api/auth/login").2 = (serverPost db₂ cl parsed "/api/auth/login").2
    ∧ (serverPost db₁ cl parsed "/api/auth/login").2.bodySent
        = (serverPost db₂ cl parsed "/api/auth/login").2.bodySent :=
  ⟨rfl, rfl⟩

/-- C5: a POST body that fails to parse as JSON is handled exactly like
the body `{}` on every path and with every `Content-Length` header, and
`POST /webhook/whatsapp` answers `{"status": "received"}` for every body
value. -/
theorem malformed_body_treated_as_empty (cl : Option String) (parsed : Option JValue)
    (path : String) :
    do_POST cl none path = do_POST cl (some (JValue.obj [])) path
    ∧ (∀ data : JValue, dispatchPost "/webhook/whatsapp" data = some webhookResponse)
    ∧ (∀ s : String, ∀ n : Int, pythonInt s = some n →
        do_POST (some s) parsed "/webhook/whatsapp"
          = ⟨some 200, some (dumps webhookResponse), none⟩) := by
  refine ⟨?_, fun data => rfl, ?_⟩
  · cases cl with
    | none => rfl
    | some s => cases h : pythonInt s <;> simp [do_POST, h]
  · intro s n hs
    simp only [do_POST]
    rw [hs]
    rfl

/-- Witness for C5 at the concrete header value `"7"`. -/
theorem malformed_body_treated_as_empty_witness :
    pythonInt "7" = some 7
    ∧ do_POST (some "7") none "/webhook/whatsapp"
        = ⟨some 200, some (dumps webhookResponse), none⟩ :=
  ⟨by decide,
   (malformed_body_treated_as_empty (some "7") none "/webhook/whatsapp").2.2 "7" 7 (by decide)⟩

/-- C2: every handled request is answered with HTTP status 200, and any
GET path other than the three mapped GET routes, as well as any POST path
other than the five mapped POST routes, is answered with the body
`{"error": "Endpoint not found"}`. -/
theorem unmatched_path_not_found (now path : String) (cl : String) (n : Int)
    (parsed : Option JValue) (hcl : pythonInt cl = some n) :
    (do_GET now path).1 = 200
    ∧ (do_POST (some cl) parsed path).statusSent = some 200
    ∧ (path ∉ (["/api/health", "/api/plans", "/api/auth/connect"] : List String) →
        dispatchGet now path = endpointNotFound)
    ∧ (path ∉ (["/api/auth/login", "/api/auth/register", "/api/auth/callback",
                "/api/messages/send", "/webhook/whatsapp"] : List String) →
        do_POST (some cl) parsed path = ⟨some 200, some (dumps endpointNotFound), none⟩) := by
  refine ⟨rfl, ?_, ?_, ?_⟩
  · rcases hd : dispatchPost path (parsed.getD (.obj [])) with _ | r <;>
      simp [do_POST, hcl, hd]
  · intro h
    simp only [List.mem_cons, List.mem_singleton, not_or] at h
    obtain ⟨g1, g2, g3⟩ := h
    simp [dispatchGet, g1, g2, g3]
  · intro h
    simp only [List.mem_cons, List.mem_singleton, not_or] at h
    obtain ⟨h1, h2, h3, h4, h5⟩ := h
    simp [do_POST, hcl, dispatchPost, h1, h2, h3, h4, h5]

/-- Witness for C2 at the concrete unmapped path `/nope`. -/
theorem unmatched_path_not_found_witness :
    pythonInt "5" = some 5
    ∧ (do_GET "2024-01-01T00:00:00" "/nope").1 = 200
    ∧ (do_POST (some "5") none "/nope").statusSent = some 200
    ∧ dispatchGet "2024-01-01T00:00:00" "/nope" = endpointNotFound
    ∧ do_POST (some "5") none "/nope" = ⟨some 200, some (dumps endpointNotFound), none⟩ := by
  have h := unmatched_path_not_found "2024-01-01T00:00:00" "/nope" "5" 5 none (by decide)
  exact ⟨by decide, h.1, h.2.1, h.2.2.1 (by decide), h.2.2.2 (by decide)⟩

/-- C10: a POST without a `Content-Length` header raises `TypeError` at
`int(None)`, and one whose header value — a latin-1 string, as
`http.server` decodes all header values — `int(...)` rejects raises
`ValueError`; in both cases before `send_response`, so no status line,
no `Endpoint not found` and no other JSON reply is produced. -/
theorem post_bad_content_length (parsed : Option JValue) (path : String) :
    do_POST none parsed path = ⟨none, none, some PyExn.typeError⟩
    ∧ ∀ s : String, (∀ c ∈ s.toList, c.toNat < 256) → pythonInt s = none →
        do_POST (some s) parsed path = ⟨none, none, some PyExn.valueError⟩ := by
  refine ⟨rfl, ?_⟩
  intro s _ hs
  simp only [do_POST]
  rw [hs]

/-- Witness for C10 at the concrete header value `"abc"`. -/
theorem post_bad_content_length_witness :
    ((∀ c ∈ "abc".toList, c.toNat < 256) ∧ pythonInt "abc" = none)
    ∧ do_POST none none "/api/auth/login" = ⟨none, none, some PyExn.typeError⟩
    ∧ do_POST (some "abc") none "/api/auth/login" = ⟨none, none, some PyExn.valueError⟩ :=
  ⟨⟨by decide, by decide⟩, (post_bad_content_length none "/api/auth/login").1,
   (post_bad_content_length none "/api/auth/login").2 "abc" (by decide) (by decide)⟩

/-- C1 counterexample: with the JSON-array body `[]` (a body that is
valid JSON but not an object), `POST /api/auth/login` does not answer
with the `Invalid credentials` payload: `data.get('email')` raises
`AttributeError` after the status line was sent and no body is written. -/
theorem login_array_body_no_response :
    dispatchPost "/api/auth/login" (JValue.arr []) = none
    ∧ do_POST (some "2") (some (JValue.arr [])) "/api/auth/login"
        = ⟨some 200, none, some PyExn.attributeError⟩
    ∧ (do_POST (some "2") (some (JValue.arr [])) "/api/auth/login").bodySent
        ≠ some (dumps loginFailureResponse) := by
  refine ⟨rfl, rfl, ?_⟩
  have hb : (do_POST (some "2") (some (JValue.arr [])) "/api/auth/login").bodySent = none := rfl
  rw [hb]
  simp

/-- C1 (amended): whenever the parsed login body is a JSON object — which
includes every unparsable body, since those are replaced by `{}` — the
response is the fixed success payload (demo user and token) exactly when
the body's `email` field equals `demo@automationservice.com` and its
`password` field equals `demo123`, and the `Invalid credentials` payload
otherwise; a parsed non-object body instead raises and produces no
response body. -/
theorem login_object_body (fs : List (String × JValue)) :
    (dispatchPost "/api/auth/login" (JValue.obj fs) = some loginSuccessResponse
      ↔ ((fs.lookup "email").getD JValue.null = JValue.str "demo@automationservice.com"
         ∧ (fs.lookup "password").getD JValue.null = JValue.str "demo123"))
    ∧ (dispatchPost "/api/auth/login" (JValue.obj fs) = some loginSuccessResponse
       ∨ dispatchPost "/api/auth/login" (JValue.obj fs) = some loginFailureResponse) := by
  have hred : dispatchPost "/api/auth/login" (JValue.obj fs)
      = if pyEqStr ((fs.lookup "email").getD JValue.null) "demo@automationservice.com"
           && pyEqStr ((fs.lookup "password").getD JValue.null) "demo123"
        then some loginSuccessResponse else some loginFailureResponse := rfl
  cases hE : pyEqStr ((fs.lookup "email").getD JValue.null) "demo@automationservice.com" <;>
  cases hP : pyEqStr ((fs.lookup "password").getD JValue.null) "demo123" <;>
    refine ⟨?_, ?_⟩ <;>
      simp [hred, hE, hP, ← pyEqStr_iff, loginSuccessResponse, loginFailureResponse]

/-- C6 counterexample: with a JSON-string body (valid JSON, not an
object), `POST /api/auth/register` does not report success:
`data.get('email')` raises `AttributeError` and the request fails with
no body written. -/
theorem register_nonobject_body_fails :
    dispatchPost "/api/auth/register" (JValue.str "oops") = none
    ∧ do_POST (some "6") (some (JValue.str "oops")) "/api/auth/register"
        = ⟨some 200, none, some PyExn.attributeError⟩ :=
  ⟨rfl, rfl⟩

/-- C6 (amended): whenever the parsed register body is a JSON object, the
response reports success and echoes the body's `email` and `name` fields
(absent fields echoed as `null`) with user id 2, tenant `tenant-new` and
plan `starter`; a parsed non-object body instead raises
`AttributeError`. -/
theorem register_object_body (fs : List (String × JValue)) :
    dispatchPost "/api/auth/register" (JValue.obj fs)
      = some (registerResponse ((fs.lookup "email").getD JValue.null)
                               ((fs.lookup "name").getD JValue.null)) :=
  rfl

/-- C7 counterexample: on the empty store the guarded seeding inserts two
rows, not exactly one: one into `users` and one into `tenants`. -/
theorem init_db_seeds_two_rows :
    ((init_db freshDB).users.getD []).length = 1
    ∧ ((init_db freshDB).tenants.getD []).length = 1
    ∧ ((init_db freshDB).whatsapp_accounts.getD []).length = 0
    ∧ ((init_db freshDB).users.getD []).length
        + ((init_db freshDB).tenants.getD []).length ≠ 1 := by
  refine ⟨rfl, rfl, rfl, ?_⟩
  decide

/-- C7 (amended): `init_db` creates the three tables when absent and,
when the `users` table is empty, inserts exactly one seed user row and
one seed tenant row; no request handler ever reads any of it (both
handlers are constant in the database state). -/
theorem init_db_amended (s : DBState) (h : (s.users.getD []).length = 0) :
    (init_db s).users = some [demoUserRow]
    ∧ (init_db s).tenants = some (s.tenants.getD [] ++ [demoTenantRow])
    ∧ (init_db s).whatsapp_accounts = some (s.whatsapp_accounts.getD [])
    ∧ (∀ s' : DBState, (init_db s').users.isSome
        ∧ (init_db s').tenants.isSome ∧ (init_db s').whatsapp_accounts.isSome)
    ∧ (∀ db₁ db₂ : DBState, ∀ cl parsed path,
        (serverPost db₁ cl parsed path).2 = (serverPost db₂ cl parsed path).2)
    ∧ (∀ db₁ db₂ : DBState, ∀ now path,
        (serverGet db₁ now path).2 = (serverGet db₂ now path).2) := by
  have h0 : s.users.getD [] = [] := List.length_eq_zero.mp h
  refine ⟨?_, ?_, ?_, ?_, fun _ _ _ _ _ => rfl, fun _ _ _ _ => rfl⟩
  · simp [init_db, h0]
  · simp [init_db, h0]
  · simp [init_db, h0]
  · intro s'
    by_cases hs' : (s'.users.getD []).length = 0 <;> simp [init_db, hs']

/-- Witness for C7's amended statement on the empty database file. -/
theorem init_db_amended_witness :
    (freshDB.users.getD []).length = 0
    ∧ (init_db freshDB).users = some [demoUserRow]
    ∧ (init_db freshDB).tenants = some (freshDB.tenants.getD [] ++ [demoTenantRow]) :=
  ⟨rfl, (init_db_amended freshDB rfl).1, (init_db_amended freshDB rfl).2.1⟩

/-- C9: `init_db` is idempotent: a second run on the state produced by a
first run leaves the database unchanged (tables are created only if
absent and the seeding is guarded by the `users` table being empty). -/
theorem init_db_idempotent (s : DBState) : init_db (init_db s) = init_db s := by
  by_cases h : (s.users.getD []).length = 0 <;>
    simp [init_db, h]
